import Mathlib

/-!
Verification development for manage.py, the command-line entry point of the
Flask-Large-Application-Example repository.  The module parses a fixed docopt
grammar, configures logging, validates a numeric port flag and dispatches to
exactly one of seven operation handlers.  Every definition below is a shallow
embedding of the corresponding Python code in manage.py; filesystem queries
(os.path.isdir, os.access) are abstracted as boolean oracles.
-/

namespace Manage

/-! ### Python logging level numbers (logging module constants) -/

def DEBUG : Nat := 10
def INFO : Nat := 20
def WARN : Nat := 30
def ERROR : Nat := 40
def FATAL : Nat := 50

/-! ### CustomFormatter (manage.py lines 66-71) -/

/-- LEVEL_MAP from CustomFormatter: a dict from the five standard level
numbers to single-letter codes. -/
def LEVEL_MAP : List (Nat × Char) :=
  [(FATAL, 'F'), (ERROR, 'E'), (WARN, 'W'), (INFO, 'I'), (DEBUG, 'D')]

structure LogRecord where
  levelno : Nat
  msg : String
deriving DecidableEq

/-- CustomFormatter.format: looks up record.levelno in LEVEL_MAP and sets
record.levelletter.  A missing key raises KeyError, modelled as none;
on success it returns the severity letter together with the record. -/
def CustomFormatter.format (r : LogRecord) : Option (Char × LogRecord) :=
  match LEVEL_MAP.lookup r.levelno with
  | none => none
  | some c => some (c, r)

/-! ### The parsed-options mapping OPTIONS = docopt(doc) (line 63) -/

/-- The seven mutually exclusive commands of the usage grammar. -/
inductive Cmd
  | devserver
  | tornadoserver
  | celerydev
  | celerybeat
  | celeryworker
  | shell
  | create_all
deriving DecidableEq

def cmdName : Cmd → String
  | .devserver => "devserver"
  | .tornadoserver => "tornadoserver"
  | .celerydev => "celerydev"
  | .celerybeat => "celerybeat"
  | .celeryworker => "celeryworker"
  | .shell => "shell"
  | .create_all => "create_all"

/-- The result of docopt for this grammar: one boolean per command name,
the three flags.  --log_dir defaults to None; --port defaults to "5000". -/
structure Options where
  devserver : Bool
  tornadoserver : Bool
  celerydev : Bool
  celerybeat : Bool
  celeryworker : Bool
  shell : Bool
  create_all : Bool
  config_prod : Bool
  log_dir : Option String
  port : String
deriving DecidableEq

/-- A value stored in the docopt dictionary: a command/flag boolean, an
optional string (--log_dir) or a string with a default (--port). -/
inductive DocoptVal
  | flag (b : Bool)
  | opt (v : Option String)
  | val (v : String)
deriving DecidableEq

/-- Python truthiness of a docopt value: False, None and the empty string
are falsy, everything else is truthy. -/
def truthy : DocoptVal → Bool
  | .flag b => b
  | .opt none => false
  | .opt (some s) => !s.isEmpty
  | .val s => !s.isEmpty

/-- The docopt dictionary OPTIONS as an association list from key to value.
Its keys are the seven command names, the three declared flags and the help
switches of the usage line. -/
def OPTIONS (o : Options) : List (String × DocoptVal) :=
  [("devserver", .flag o.devserver),
   ("tornadoserver", .flag o.tornadoserver),
   ("celerydev", .flag o.celerydev),
   ("celerybeat", .flag o.celerybeat),
   ("celeryworker", .flag o.celeryworker),
   ("shell", .flag o.shell),
   ("create_all", .flag o.create_all),
   ("--config_prod", .flag o.config_prod),
   ("--log_dir", .opt o.log_dir),
   ("--port", .val o.port),
   ("-h", .flag false),
   ("--help", .flag false)]

/-! ### setup_logging (lines 74-102) -/

/-- Filesystem oracle: os.path.isdir and os.access(path, os.W_OK). -/
structure FS where
  isdir : String → Bool
  writable : String → Bool

/-- Where a logging handler writes.  The source only ever constructs a
console (stdout) handler; the file constructor exists so that the absence
of a file handler is an actual statement about the output. -/
inductive Sink
  | console
  | file (path : String)
deriving DecidableEq

structure Handler where
  level : Nat
  sink : Sink
deriving DecidableEq

inductive SetupResult
  | exit1 (msg : String)
  | ok (handlers : List Handler) (rootLevel : Nat)
deriving DecidableEq

/-- setup_logging: if OPTIONS['--log_dir'] is truthy it validates the
directory (exists, writable) and on failure prints an error and exits 1;
otherwise log_to_disk stays False.  It then adds a single stdout handler at
level ERROR when log_to_disk else DEBUG, and sets the root level to DEBUG.
No other handler is created. -/
def setup_logging (fs : FS) (o : Options) : SetupResult :=
  let dir := o.log_dir.getD ""
  if dir.isEmpty then
    .ok [{ level := DEBUG, sink := .console }] DEBUG
  else if fs.isdir dir = false then
    .exit1 ("ERROR: Directory " ++ dir ++ " does not exist.")
  else if fs.writable dir = false then
    .exit1 ("ERROR: No permissions to write to directory " ++ dir ++ ".")
  else
    .ok [{ level := ERROR, sink := .console }] DEBUG

/-- A record of the given level reaches the console: the root logger passes
it (root level at most the record level) and some console handler whose
level is at most the record level emits it. -/
def consoleOutput (handlers : List Handler) (rootLevel levelno : Nat) : Bool :=
  decide (rootLevel ≤ levelno) &&
    handlers.any fun h => (h.sink == Sink.console) && decide (h.level ≤ levelno)

/-- A record of the given level reaches some file on disk. -/
def fileOutput (handlers : List Handler) (rootLevel levelno : Nat) : Bool :=
  decide (rootLevel ≤ levelno) &&
    handlers.any fun h =>
      (match h.sink with | .file _ => true | .console => false) &&
        decide (h.level ≤ levelno)

/-! ### The command decorator (lines 131-162) -/

inductive RegisterResult
  | keyError
  | ok (chosen : Bool)
deriving DecidableEq

/-- The body of the command decorator for a function with the given name:
raise KeyError when the name is not a key of OPTIONS, otherwise report
whether OPTIONS[name] is truthy (in which case command.chosen is set). -/
def command (o : Options) (funcName : String) : RegisterResult :=
  match (OPTIONS o).lookup funcName with
  | none => .keyError
  | some v => .ok (truthy v)

/-- The handlers decorated with command, in source order (lines 165-233). -/
def moduleCmds : List Cmd :=
  [.devserver, .tornadoserver, .celerydev, .celerybeat, .celeryworker,
   .shell, .create_all]

/-- Whether the decorator applied to this handler sets command.chosen. -/
def selected (o : Options) (c : Cmd) : Bool :=
  match command o (cmdName c) with
  | .keyError => false
  | .ok b => b

/-- Running all seven decorations at module load, in source order: a
KeyError aborts the load, otherwise command.chosen ends as the last handler
whose OPTIONS entry is truthy (none when no command matched). -/
def registerAll (o : Options) : Except Unit (Option Cmd) :=
  moduleCmds.foldlM
    (fun chosen c =>
      match command o (cmdName c) with
      | .keyError => .error ()
      | .ok true => .ok (some c)
      | .ok false => .ok chosen)
    none

/-! ### Operation handlers as effect traces (lines 165-233) -/

/-- The externally visible actions a handler performs, in order. -/
inductive Effect
  | create_app (configProd : Bool) (noSql : Bool)
  | log_messages (port : String)
  | flask_run (host : String) (port : String)
  | tornado_bind (port : String)
  | tornado_start
  | ioloop_start
  | celery_logging_disable
  | appContextEnter
  | appContextExit
  | appContextPush
  | celery_main (args : List String)
  | shell_run
  | db_create_all
deriving DecidableEq

/-- The trace of each handler body, transcribed from the source. -/
def handlerEffects (o : Options) : Cmd → List Effect
  | .devserver =>
    [.create_app o.config_prod false, .log_messages o.port,
     .flask_run "0.0.0.0" o.port]
  | .tornadoserver =>
    [.create_app o.config_prod false, .log_messages o.port,
     .tornado_bind o.port, .tornado_start, .ioloop_start]
  | .celerydev =>
    [.create_app o.config_prod true, .celery_logging_disable,
     .appContextEnter,
     .celery_main ["celery", "worker", "-B", "-s", "/tmp/celery.db",
       "--concurrency=5"],
     .appContextExit]
  | .celerybeat =>
    [.create_app o.config_prod true, .celery_logging_disable,
     .appContextEnter,
     .celery_main ["celery", "beat", "-C", "--pidfile=celery_beat.pid"],
     .appContextExit]
  | .celeryworker =>
    [.create_app o.config_prod true, .celery_logging_disable,
     .appContextEnter,
     .celery_main ["celery", "worker", "-C", "--autoscale=10,1",
       "--without-gossip"],
     .appContextExit]
  | .shell =>
    [.create_app o.config_prod false, .appContextPush, .shell_run]
  | .create_all =>
    [.create_app o.config_prod false, .appContextEnter, .db_create_all,
     .appContextExit]

/-- Effects that hand control to an external server/worker run loop. -/
def isServerLoop : Effect → Bool
  | .flask_run _ _ => true
  | .tornado_start => true
  | .ioloop_start => true
  | .celery_main _ => true
  | _ => false

/-! ### The main block (lines 236-242) -/

/-- Python 2.7 str.isdigit: true iff the string is non-empty and every
character is an ASCII decimal digit. -/
def isdigit (s : String) : Bool :=
  !s.data.isEmpty && s.data.all Char.isDigit

inductive MainResult
  | exited (code : Nat) (msg : String)
  | ran (c : Cmd) (trace : List Effect)
  | attributeError
deriving DecidableEq

/-- The whole invocation after docopt has produced o: module-load
registration (a KeyError there is an uncaught exception, exit code 1), then
the main block: install the SIGINT handler, setup_logging (which may exit
1), the --port isdigit check (exit 1 on failure), then getattr(command,
'chosen')() runs the single selected handler. -/
def runModule (fs : FS) (o : Options) : MainResult :=
  match registerAll o with
  | .error _ => .exited 1 "KeyError"
  | .ok chosen =>
    match setup_logging fs o with
    | .exit1 msg => .exited 1 msg
    | .ok _ _ =>
      if isdigit o.port = false then
        .exited 1 "ERROR: Port should be a number."
      else
        match chosen with
        | none => .attributeError
        | some c => .ran c (handlerEffects o c)

/-! ### SIGINT disposition (line 237) -/

/-- One step of the module run, for tracking the signal disposition. -/
inductive Step
  | installSigint
  | runSetupLogging
  | checkPort
  | runEffect (e : Effect)
deriving DecidableEq

/-- The SIGINT disposition: some code means a handler calling
sys.exit(code) is installed.  Only signal.signal at line 237 touches it;
no handler effect does. -/
def sigUpdate (d : Option Nat) : Step → Option Nat
  | .installSigint => some 0
  | _ => d

def sigAfter (steps : List Step) : Option Nat :=
  steps.foldl sigUpdate none

/-- The steps of the main block in execution order.  signal.signal(SIGINT,
lambda: sys.exit(0)) is the first statement; the chosen handler runs last. -/
def mainSteps (fs : FS) (o : Options) : List Step :=
  Step.installSigint :: Step.runSetupLogging ::
    (match setup_logging fs o with
     | .exit1 _ => []
     | .ok _ _ =>
       Step.checkPort ::
         (if isdigit o.port = false then []
          else match registerAll o with
            | .error _ => []
            | .ok none => []
            | .ok (some c) => (handlerEffects o c).map Step.runEffect))

/-- Delivering SIGINT when the disposition has an installed handler makes
the process exit with that handler's code. -/
def deliverSigint (d : Option Nat) : Option Nat := d

/-! ### Concrete option vectors used in the statements -/

/-- The options produced by invoking a command with no optional flags:
only that command's boolean is true, --log_dir absent, --port at its
docopt default "5000", --config_prod off. -/
def noFlagOpts (c : Cmd) : Options :=
  { devserver := c = Cmd.devserver
    tornadoserver := c = Cmd.tornadoserver
    celerydev := c = Cmd.celerydev
    celerybeat := c = Cmd.celerybeat
    celeryworker := c = Cmd.celeryworker
    shell := c = Cmd.shell
    create_all := c = Cmd.create_all
    config_prod := false
    log_dir := none
    port := "5000" }

/-- A filesystem where every path is an existing writable directory. -/
def fsAll : FS := { isdir := fun _ => true, writable := fun _ => true }

/-- A filesystem where no path exists or is writable. -/
def fsNone : FS := { isdir := fun _ => false, writable := fun _ => false }

/-- The options of invoking create_all, with or without --config_prod. -/
def createAllOpts (prod : Bool) : Options :=
  { noFlagOpts Cmd.create_all with config_prod := prod }

/-- The handler list setup_logging installs when a valid log directory was
given: a single stdout handler at level ERROR. -/
def diskHandlers : List Handler := [{ level := ERROR, sink := Sink.console }]

/-- The handler list setup_logging installs when no log directory was
given: a single stdout handler at level DEBUG. -/
def stdoutHandlers : List Handler := [{ level := DEBUG, sink := Sink.console }]

/-! ## Helper lemmas -/

/-- All seven decorated handler names are keys of OPTIONS, so module-load
registration never raises KeyError, whatever the parsed options are. -/
theorem registerAll_isOk (o : Options) : ∃ ch, registerAll o = Except.ok ch := by
  obtain ⟨d, t, cd, cb, cw, sh, ca, cp, ld, p⟩ := o
  cases d <;> cases t <;> cases cd <;> cases cb <;> cases cw <;> cases sh <;>
    cases ca <;> exact ⟨_, rfl⟩

/-- No step of the main block replaces an installed exit-0 disposition. -/
theorem sigUpdate_keeps (s : Step) : sigUpdate (some 0) s = some 0 := by
  cases s <;> rfl

theorem foldl_sigUpdate_some0 (t : List Step) :
    t.foldl sigUpdate (some 0) = some 0 := by
  induction t with
  | nil => rfl
  | cons s t ih => rw [List.foldl_cons, sigUpdate_keeps]; exact ih

/-- A port string containing a non-digit character fails str.isdigit. -/
theorem isdigit_eq_false (s : String) (h : ∃ ch ∈ s.data, ch.isDigit = false) :
    isdigit s = false := by
  obtain ⟨ch, hmem, hnd⟩ := h
  have hall : s.data.all Char.isDigit = false := by
    rcases hb : s.data.all Char.isDigit
    · rfl
    · exact absurd (List.all_eq_true.mp hb ch hmem) (by simp [hnd])
  simp [isdigit, hall]

/-- LEVEL_MAP lookup as a decision chain over the five level numbers. -/
theorem lookup_LEVEL_MAP (n : Nat) :
    LEVEL_MAP.lookup n =
      if n = 50 then some 'F' else if n = 40 then some 'E'
      else if n = 30 then some 'W' else if n = 20 then some 'I'
      else if n = 10 then some 'D' else none := by
  simp only [LEVEL_MAP, List.lookup, FATAL, ERROR, WARN, INFO, DEBUG]
  cases h50 : n == 50 <;> cases h40 : n == 40 <;> cases h30 : n == 30 <;>
    cases h20 : n == 20 <;> cases h10 : n == 10 <;>
    simp_all [beq_iff_eq]

/-! ## Claims -/

/-- C1: with no log directory every severity from DEBUG up reaches the
console, and with a valid log directory only ERROR and above reach the
console.  But the claimed routing of the remaining severities to a file in
the directory does not happen: setup_logging installs the single stdout
handler and nothing else, so with a valid log directory DEBUG, INFO and
WARN records reach neither the console nor any file.  This contradicts the
module docstring (log all statements to file in this directory) and the
function docstring (always logs DEBUG statements somewhere): a bug in the
code, evaluated here at an existing writable directory. -/
theorem C1_no_file_handler :
    setup_logging fsAll
        { noFlagOpts Cmd.devserver with log_dir := some "/var/log/app" } =
      SetupResult.ok diskHandlers DEBUG ∧
    consoleOutput diskHandlers DEBUG ERROR = true ∧
    consoleOutput diskHandlers DEBUG FATAL = true ∧
    consoleOutput diskHandlers DEBUG WARN = false ∧
    consoleOutput diskHandlers DEBUG INFO = false ∧
    consoleOutput diskHandlers DEBUG DEBUG = false ∧
    fileOutput diskHandlers DEBUG DEBUG = false ∧
    fileOutput diskHandlers DEBUG INFO = false ∧
    fileOutput diskHandlers DEBUG WARN = false ∧
    fileOutput diskHandlers DEBUG ERROR = false ∧
    fileOutput diskHandlers DEBUG FATAL = false ∧
    setup_logging fsAll (noFlagOpts Cmd.devserver) =
      SetupResult.ok stdoutHandlers DEBUG ∧
    consoleOutput stdoutHandlers DEBUG DEBUG = true ∧
    consoleOutput stdoutHandlers DEBUG INFO = true ∧
    consoleOutput stdoutHandlers DEBUG WARN = true ∧
    consoleOutput stdoutHandlers DEBUG ERROR = true ∧
    consoleOutput stdoutHandlers DEBUG FATAL = true := by decide

/-- C2: for every supported command invoked with no optional flags,
registration assigns exactly that command's handler to command.chosen
(the filter of selected handlers over the module is exactly that one
handler), and the main block runs exactly that handler's effects. -/
theorem C2_single_command_selected (fs : FS) (c : Cmd) :
    registerAll (noFlagOpts c) = Except.ok (some c) ∧
    moduleCmds.filter (selected (noFlagOpts c)) = [c] ∧
    runModule fs (noFlagOpts c) =
      MainResult.ran c (handlerEffects (noFlagOpts c) c) := by
  cases c <;> exact ⟨rfl, rfl, rfl⟩

/-- C3: whenever the port flag value contains a non-digit character the
invocation ends in exit code 1 with a printed error message, and no
handler (in particular no server handler) is ever entered.  When the log
directory is also invalid the exit-1 message is the log-directory error;
otherwise it is the port error. -/
theorem C3_nonnumeric_port_exit1 (fs : FS) (o : Options)
    (h : ∃ ch ∈ o.port.data, ch.isDigit = false) :
    (∃ msg, runModule fs o = MainResult.exited 1 msg) ∧
    ∀ c tr, runModule fs o ≠ MainResult.ran c tr := by
  have hid : isdigit o.port = false := isdigit_eq_false o.port h
  obtain ⟨ch, hr⟩ := registerAll_isOk o
  cases hs : setup_logging fs o with
  | exit1 msg =>
    exact ⟨⟨msg, by simp [runModule, hr, hs]⟩, by simp [runModule, hr, hs]⟩
  | ok hdl rl =>
    refine ⟨⟨"ERROR: Port should be a number.", ?_⟩, ?_⟩ <;>
      simp [runModule, hr, hs, hid]

theorem C3_nonnumeric_port_exit1_witness :
    ∃ msg, runModule fsAll { noFlagOpts Cmd.devserver with port := "80a" } =
      MainResult.exited 1 msg :=
  (C3_nonnumeric_port_exit1 fsAll
    { noFlagOpts Cmd.devserver with port := "80a" } (by decide)).1

/-- C4 as stated is false: the empty string is a log-directory flag value
(docopt hands it over for a bare -l value) that does not name an existing
directory, yet Python truthiness makes setup_logging skip validation
entirely, install the all-severities console handler, and let the run
proceed to the handler with no error and no exit code 1. -/
theorem C4_empty_log_dir_counterexample :
    fsNone.isdir "" = false ∧
    setup_logging fsNone { noFlagOpts Cmd.devserver with log_dir := some "" } =
      SetupResult.ok stdoutHandlers DEBUG ∧
    runModule fsNone { noFlagOpts Cmd.devserver with log_dir := some "" } =
      MainResult.ran Cmd.devserver
        [Effect.create_app false false, Effect.log_messages "5000",
         Effect.flask_run "0.0.0.0" "5000"] := by decide

/-- C4 amended: for every non-empty log-directory flag value, if it does
not name an existing directory then setup_logging prints the
directory-does-not-exist error and the process exits with code 1, with no
handler configuration produced at all, hence no log file created; and if
it names an existing but unwritable directory then setup_logging prints
the no-permissions error and the process exits with code 1. -/
theorem C4_log_dir_validation (fs : FS) (o : Options) (d : String)
    (hld : o.log_dir = some d) (hne : d ≠ "") :
    (fs.isdir d = false →
      setup_logging fs o =
        SetupResult.exit1 ("ERROR: Directory " ++ d ++ " does not exist.") ∧
      runModule fs o =
        MainResult.exited 1 ("ERROR: Directory " ++ d ++ " does not exist.") ∧
      ∀ hdl rl, setup_logging fs o ≠ SetupResult.ok hdl rl) ∧
    (fs.isdir d = true → fs.writable d = false →
      setup_logging fs o =
        SetupResult.exit1
          ("ERROR: No permissions to write to directory " ++ d ++ ".") ∧
      runModule fs o =
        MainResult.exited 1
          ("ERROR: No permissions to write to directory " ++ d ++ ".")) := by
  obtain ⟨ch, hr⟩ := registerAll_isOk o
  have hemp : d.isEmpty = false := by
    rcases hb : d.isEmpty
    · rfl
    · exact absurd ((String.isEmpty_iff d).mp hb) hne
  constructor
  · intro hdir
    have hs : setup_logging fs o =
        SetupResult.exit1 ("ERROR: Directory " ++ d ++ " does not exist.") := by
      simp [setup_logging, hld, hemp, hdir]
    exact ⟨hs, by simp [runModule, hr, hs], by simp [hs]⟩
  · intro hdir hw
    have hs : setup_logging fs o =
        SetupResult.exit1
          ("ERROR: No permissions to write to directory " ++ d ++ ".") := by
      simp [setup_logging, hld, hemp, hdir, hw]
    exact ⟨hs, by simp [runModule, hr, hs]⟩

theorem C4_log_dir_validation_witness :
    setup_logging fsNone { noFlagOpts Cmd.devserver with log_dir := some "/baddir" } =
      SetupResult.exit1 "ERROR: Directory /baddir does not exist." :=
  ((C4_log_dir_validation fsNone
      { noFlagOpts Cmd.devserver with log_dir := some "/baddir" }
      "/baddir" rfl (by decide)).1 rfl).1

/-- C5: the command decorator raises KeyError at registration exactly for
function names that are not keys of the parsed-options mapping OPTIONS. -/
theorem C5_unregistered_name_keyerror (o : Options) (funcName : String) :
    command o funcName = RegisterResult.keyError ↔
      (OPTIONS o).lookup funcName = none := by
  cases h : (OPTIONS o).lookup funcName with
  | none => simp [command, h]
  | some v => simp [command, h]

theorem C5_unregistered_name_keyerror_witness :
    command (noFlagOpts Cmd.devserver) "make_coffee" = RegisterResult.keyError :=
  (C5_unregistered_name_keyerror (noFlagOpts Cmd.devserver) "make_coffee").mpr
    (by decide)

/-- C6: invoking create_all (with or without --config_prod) selects the
create_all handler; its trace builds the application, enters the
application context, calls db.create_all exactly once strictly inside the
context, leaves the context, and contains no server/worker run-loop
effect, after which the main block ends. -/
theorem C6_create_all_exactly_once (fs : FS) (prod : Bool) :
    runModule fs (createAllOpts prod) =
      MainResult.ran Cmd.create_all
        [Effect.create_app prod false, Effect.appContextEnter,
         Effect.db_create_all, Effect.appContextExit] ∧
    (handlerEffects (createAllOpts prod) Cmd.create_all).count
        Effect.db_create_all = 1 ∧
    (handlerEffects (createAllOpts prod) Cmd.create_all).any isServerLoop =
      false := by
  cases prod <;> exact ⟨rfl, rfl, rfl⟩

/-- C7: the first statement of the main block installs a SIGINT handler
that calls sys.exit(0), and no later step of any operation replaces it, so
after any non-empty prefix of the run, that is, at every instant during a
running operation, delivering SIGINT exits the process with code 0. -/
theorem C7_sigint_exits_zero (fs : FS) (o : Options) (n : Nat) (hn : 1 ≤ n) :
    deliverSigint (sigAfter ((mainSteps fs o).take n)) = some 0 := by
  obtain ⟨m, rfl⟩ := Nat.exists_eq_add_of_le hn
  rw [Nat.add_comm]
  simp only [mainSteps, List.take_succ_cons, sigAfter, List.foldl_cons,
    deliverSigint, sigUpdate]
  exact foldl_sigUpdate_some0 _

theorem C7_sigint_exits_zero_witness :
    deliverSigint (sigAfter ((mainSteps fsAll (noFlagOpts Cmd.shell)).take 3)) =
      some 0 :=
  C7_sigint_exits_zero fsAll (noFlagOpts Cmd.shell) 3 (by decide)

/-- C8: the main block runs setup_logging (with its log-directory
validation) before the port check and the port check before the handler:
a handler only ever runs when setup_logging succeeded and the port is all
digits, and whenever setup_logging exits (in particular when the port is
also invalid) its log-directory error message is the one reported with
exit code 1. -/
theorem C8_validation_order (fs : FS) (o : Options) :
    (∀ c tr, runModule fs o = MainResult.ran c tr →
      (∃ hdl rl, setup_logging fs o = SetupResult.ok hdl rl) ∧
      isdigit o.port = true ∧ tr = handlerEffects o c) ∧
    (∀ msg, setup_logging fs o = SetupResult.exit1 msg →
      runModule fs o = MainResult.exited 1 msg) := by
  obtain ⟨ch, hr⟩ := registerAll_isOk o
  constructor
  · intro c tr h
    cases hs : setup_logging fs o with
    | exit1 msg => simp [runModule, hr, hs] at h
    | ok hdl rl =>
      rcases hd : isdigit o.port with _ | _
      · simp [runModule, hr, hs, hd] at h
      · cases ch with
        | none => simp [runModule, hr, hs, hd] at h
        | some c' =>
          simp only [runModule, hr, hs, hd] at h
          simp at h
          obtain ⟨hc, htr⟩ := h
          subst hc
          exact ⟨⟨hdl, rl, rfl⟩, rfl, htr.symm⟩
  · intro msg hs
    simp [runModule, hr, hs]

theorem C8_validation_order_witness :
    runModule fsNone
        { noFlagOpts Cmd.devserver with log_dir := some "/nope", port := "x7" } =
      MainResult.exited 1 "ERROR: Directory /nope does not exist." :=
  (C8_validation_order fsNone
    { noFlagOpts Cmd.devserver with log_dir := some "/nope", port := "x7" }).2
    "ERROR: Directory /nope does not exist." rfl

/-- C9: CustomFormatter.format succeeds exactly on records whose level
number is one of the five standard severities FATAL, ERROR, WARN, INFO,
DEBUG; on every other level number the LEVEL_MAP lookup has no key and
format raises KeyError (returns none). -/
theorem C9_formatter_level_domain (r : LogRecord) :
    (∃ res, CustomFormatter.format r = some res) ↔
      (r.levelno = FATAL ∨ r.levelno = ERROR ∨ r.levelno = WARN ∨
       r.levelno = INFO ∨ r.levelno = DEBUG) := by
  obtain ⟨n, m⟩ := r
  simp only [CustomFormatter.format, lookup_LEVEL_MAP, FATAL, ERROR, WARN,
    INFO, DEBUG]
  split_ifs <;> simp_all

theorem C9_formatter_level_domain_witness :
    ∃ res, CustomFormatter.format { levelno := 30, msg := "boot" } = some res :=
  (C9_formatter_level_domain { levelno := 30, msg := "boot" }).mpr (by decide)

/-- C10: str.isdigit accepts exactly the non-empty strings of decimal
digits, so the port check performs no range check: both 0 and 70000 pass
and are handed to the server framework as the listen port, while -1, +5
and the empty string end the run with exit code 1. -/
theorem C10_port_digits_only (s : String) :
    (isdigit s = true ↔ s.data ≠ [] ∧ ∀ ch ∈ s.data, ch.isDigit = true) ∧
    isdigit "0" = true ∧ isdigit "70000" = true ∧
    isdigit "-1" = false ∧ isdigit "+5" = false ∧ isdigit "" = false ∧
    runModule fsAll { noFlagOpts Cmd.devserver with port := "70000" } =
      MainResult.ran Cmd.devserver
        [Effect.create_app false false, Effect.log_messages "70000",
         Effect.flask_run "0.0.0.0" "70000"] ∧
    runModule fsAll { noFlagOpts Cmd.devserver with port := "0" } =
      MainResult.ran Cmd.devserver
        [Effect.create_app false false, Effect.log_messages "0",
         Effect.flask_run "0.0.0.0" "0"] ∧
    runModule fsAll { noFlagOpts Cmd.devserver with port := "-1" } =
      MainResult.exited 1 "ERROR: Port should be a number." := by
  refine ⟨?_, by decide, by decide, by decide, by decide, by decide,
    rfl, rfl, rfl⟩
  simp [isdigit, List.all_eq_true, List.isEmpty_iff]

theorem C10_port_digits_only_witness :
    isdigit "7" = true :=
  ((C10_port_digits_only "7").1).mpr (by decide)

end Manage
